import Mathlib

/-!
Shallow embedding of `src/backend-auth-simple.js`: a flat-file account store with
registration, login, token-based authentication, profile update and a simulated
upload route that maintains per-account storage counters.

JavaScript runtime values that the handlers manipulate are modelled by `JVal`
(with `JNum` capturing the NaN behaviour of `parseInt` and arithmetic), accounts
by the `Account` structure, and each Express handler by a pure function from its
inputs and the current account list to a response and the updated account list.
-/

namespace SiteCloud

/-- JavaScript numbers as used by the upload route: either NaN (from a failed
`parseInt`) or an integer. -/
inductive JNum where
  | nan : JNum
  | int : Int → JNum
deriving DecidableEq, Repr

/-- NaN propagates through `+`; two integers add normally. -/
def JNum.add : JNum → JNum → JNum
  | .int a, .int b => .int (a + b)
  | _, _ => .nan

/-- JavaScript `>` against an integer: any comparison with NaN is false. -/
def JNum.gtInt : JNum → Int → Bool
  | .nan, _ => false
  | .int a, b => a > b

/-- JSON/JavaScript values occurring in request bodies and account fields.
`settingsObj` models the settings object `{autoSync, notifications, theme}`
created at registration. -/
inductive JVal where
  | str : String → JVal
  | num : JNum → JVal
  | boolean : Bool → JVal
  | null : JVal
  | settingsObj : Bool → Bool → String → JVal
deriving DecidableEq, Repr

def JVal.isNaN : JVal → Bool
  | .num .nan => true
  | _ => false

/-- JavaScript strict equality `===` restricted to the values of `JVal`:
NaN is not equal to anything (including itself); otherwise structural equality. -/
def jsStrictEq (a b : JVal) : Bool :=
  if a.isNaN || b.isNaN then false else a == b

/-- JavaScript truthiness, as used by the `!username`-style presence checks. -/
def truthy : JVal → Bool
  | .str s => !(s == "")
  | .num .nan => false
  | .num (.int z) => !(z == 0)
  | .boolean b => b
  | .null => false
  | .settingsObj _ _ _ => true

/-- Numeric value of a digit run (most significant first). -/
def digitsVal (cs : List Char) : Nat :=
  cs.foldl (fun a c => a * 10 + (c.toNat - 48)) 0

/-- JavaScript `parseInt` on a string: optional sign, then the longest leading
digit run; NaN when there is no leading digit. -/
def parseIntStr (s : String) : JNum :=
  let step : Bool → List Char → JNum := fun neg rest =>
    let ds := rest.takeWhile Char.isDigit
    if ds.isEmpty then .nan
    else .int (if neg then -(digitsVal ds : Int) else (digitsVal ds : Int))
  match s.data with
  | '-' :: rest => step true rest
  | '+' :: rest => step false rest
  | rest => step false rest

/-- JavaScript `parseInt` on an arbitrary value: numbers pass through (NaN stays
NaN), strings are parsed, everything else stringifies to something non-numeric
and yields NaN. -/
def parseInt : JVal → JNum
  | .num n => n
  | .str s => parseIntStr s
  | _ => .nan

/-- Modelled from the spec: password hashing is performed by the external
`bcrypt` library (`bcrypt.hash(password, 12)`; spec §4.2 "slow adaptive hash",
cost 12), which is not part of this repository. It is modelled as an injective
tagged encoding carrying the bcrypt format prefix, with `verifyPassword`
(`bcrypt.compare`) as the matching check. -/
def hashPassword (plaintext : String) : String :=
  "$2b$12$" ++ plaintext

/-- Modelled from the spec: `bcrypt.compare(plaintext, stored)` succeeds exactly
when the stored value is the hash of the plaintext. -/
def verifyPassword (plaintext stored : String) : Bool :=
  hashPassword plaintext == stored

/-- The `expiresIn: '7d'` horizon, in seconds. -/
def sevenDays : Nat := 7 * 24 * 60 * 60

/-- An ideal message-authentication value over the token payload and the signing
secret: two signatures are equal exactly when secret and payload agree. -/
structure Sig where
  secret : String
  userId : String
  email : JVal
  exp : Nat
deriving DecidableEq, Repr

def mkSig (secret userId : String) (email : JVal) (exp : Nat) : Sig :=
  ⟨secret, userId, email, exp⟩

/-- A decoded JWT: the claims `{userId, email}`, the expiry instant, and the
signature over them. -/
structure Token where
  userId : String
  email : JVal
  exp : Nat
  sig : Sig
deriving DecidableEq, Repr

/-- A token as transmitted: either a structurally well-formed token or a
malformed string that no decoder accepts. -/
inductive Wire where
  | tok : Token → Wire
  | malformed : String → Wire
deriving DecidableEq, Repr

inductive VerifyOutcome where
  | valid : String → JVal → VerifyOutcome
  | expired : VerifyOutcome
  | invalid : VerifyOutcome
deriving DecidableEq, Repr

/-- Modelled from the spec: `jwt.sign({userId, email}, secret, {expiresIn: '7d'})`
from the external `jsonwebtoken` library — a signed, tamper-evident token
embedding the claims and an expiry 7 days from issuance (spec §4.2). -/
def issueToken (secret : String) (now : Nat) (accountId : String) (email : JVal) : Token :=
  { userId := accountId, email := email, exp := now + sevenDays,
    sig := mkSig secret accountId email (now + sevenDays) }

/-- Modelled from the spec: `jwt.verify(token, secret)` — malformed input and
signature mismatches are invalid; a validly signed token past its expiry is
expired; otherwise the embedded claims are returned (spec §4.2). -/
def verifyToken (secret : String) (now : Nat) : Wire → VerifyOutcome
  | .malformed _ => .invalid
  | .tok t =>
    if t.sig = mkSig secret t.userId t.email t.exp then
      if t.exp ≤ now then .expired else .valid t.userId t.email
    else .invalid

/-- An account record as stored in `users.json`. `username`, `email` and
`settings` are `JVal` because the profile-update route can assign them any JSON
value from the request body; `storageUsed` is a `JNum` because the upload route
can assign it the result of `parseInt`. -/
structure Account where
  id : String
  username : JVal
  email : JVal
  password : String
  storageUsed : JNum
  storageLimit : Int
  createdAt : String
  isActive : Bool
  settings : JVal
deriving DecidableEq, Repr

/-- The `const (password: _, ...userData) = user` rest-spread: every field of the
record except `password`, serialized in declaration order. -/
def sanitizeUser (u : Account) : List (String × JVal) :=
  [("id", .str u.id), ("username", u.username), ("email", u.email),
   ("storageUsed", .num u.storageUsed), ("storageLimit", .num (.int u.storageLimit)),
   ("createdAt", .str u.createdAt), ("isActive", .boolean u.isActive),
   ("settings", u.settings)]

/-- The `newUser` object literal built by the register handler (lines 64-78):
id from `Date.now().toString()`, bcrypt hash, zeroed storage, 1 TB limit,
default settings. -/
def mkNewUser (now : Nat) (createdAt username email password : String) : Account :=
  { id := Nat.repr now, username := .str username, email := .str email,
    password := hashPassword password, storageUsed := .int 0,
    storageLimit := 1099511627776, createdAt := createdAt, isActive := true,
    settings := .settingsObj false true "light" }

inductive RegisterResult where
  | err : Nat → String → RegisterResult
  | created : List (String × JVal) → Token → RegisterResult
deriving DecidableEq, Repr

def RegisterResult.isCreated : RegisterResult → Bool
  | .created _ _ => true
  | _ => false

/-- `POST /api/auth/register` (lines 42-102): presence validation, duplicate
check on email or username, bcrypt hash, append, persist, issue token, respond
with the sanitized user. -/
def register (secret : String) (now : Nat) (createdAt : String) (users : List Account)
    (username email password : String) : RegisterResult × List Account :=
  if username == "" || email == "" || password == "" then
    (.err 400 "Todos os campos são obrigatórios", users)
  else if users.any (fun u =>
      jsStrictEq u.email (.str email) || jsStrictEq u.username (.str username)) then
    (.err 409 "Usuário ou email já cadastrado", users)
  else
    let newUser := mkNewUser now createdAt username email password
    (.created (sanitizeUser newUser) (issueToken secret now newUser.id newUser.email),
     users ++ [newUser])

inductive LoginResult where
  | err : Nat → String → LoginResult
  | ok : List (String × JVal) → Token → LoginResult
deriving DecidableEq, Repr

/-- `POST /api/auth/login` (lines 105-146): presence validation, lookup by
email, bcrypt comparison, token issuance. Both failure sites return the same
401 response. -/
def login (secret : String) (now : Nat) (users : List Account)
    (email password : String) : LoginResult :=
  if email == "" || password == "" then .err 400 "Email e senha são obrigatórios"
  else
    match users.find? (fun u => jsStrictEq u.email (.str email)) with
    | none => .err 401 "Credenciais inválidas"
    | some u =>
      if verifyPassword password u.password then
        .ok (sanitizeUser u) (issueToken secret now u.id u.email)
      else .err 401 "Credenciais inválidas"

inductive AuthOutcome where
  | err : Nat → String → AuthOutcome
  | ok : Account → AuthOutcome
deriving DecidableEq, Repr

/-- The `authenticateToken` middleware (lines 149-176): missing token → 401,
any verification failure (invalid or expired) → the same 401, unknown account
id → 401, else the account. -/
def authenticate (secret : String) (now : Nat) (users : List Account) :
    Option Wire → AuthOutcome
  | none => .err 401 "Token não fornecido"
  | some w =>
    match verifyToken secret now w with
    | .valid userId _ =>
      match users.find? (fun u => u.id == userId) with
      | none => .err 401 "Usuário não encontrado"
      | some u => .ok u
    | _ => .err 401 "Token inválido"

inductive ViewResult where
  | err : Nat → String → ViewResult
  | ok : List (String × JVal) → ViewResult
deriving DecidableEq, Repr

/-- `GET /api/auth/verify` (lines 179-182): return the authenticated account,
password stripped. -/
def verifyRoute (secret : String) (now : Nat) (users : List Account)
    (w : Option Wire) : ViewResult :=
  match authenticate secret now users w with
  | .err s m => .err s m
  | .ok u => .ok (sanitizeUser u)

/-- `GET /api/user/profile` (lines 185-188): identical to the verify route. -/
def getProfile (secret : String) (now : Nat) (users : List Account)
    (w : Option Wire) : ViewResult :=
  match authenticate secret now users w with
  | .err s m => .err s m
  | .ok u => .ok (sanitizeUser u)

/-- `allowedUpdates` (line 201). -/
def allowedUpdates : List String := ["username", "email", "settings"]

/-- `users[userIndex][key] = req.body[key]` for one key of the patch. -/
def assignField (u : Account) (key : String) (v : JVal) : Account :=
  if key == "username" then { u with username := v }
  else if key == "email" then { u with email := v }
  else if key == "settings" then { u with settings := v }
  else u

/-- One iteration of the `for (const key in req.body)` loop (lines 203-207). -/
def updateStep (u : Account) (kv : String × JVal) : Account :=
  if allowedUpdates.contains kv.1 then assignField u kv.1 kv.2 else u

/-- The whole update loop: fold the patch entries over the stored account. -/
def applyUpdate (u : Account) (patch : List (String × JVal)) : Account :=
  patch.foldl updateStep u

/-- The value the update loop leaves in a field: the last patch entry for the
key, if any. -/
def lastVal (key : String) : List (String × JVal) → Option JVal
  | [] => none
  | kv :: rest =>
    match lastVal key rest with
    | some v => some v
    | none => if kv.1 == key then some kv.2 else none

/-- `PUT /api/user/profile` (lines 191-219): find the authenticated account by
id, apply the allowed-field loop, persist, respond with the sanitized result. -/
def updateProfile (users : List Account) (uid : String)
    (patch : List (String × JVal)) : ViewResult × List Account :=
  match users.findIdx? (fun u => u.id == uid) with
  | none => (.err 404 "Usuário não encontrado", users)
  | some i =>
    match users[i]? with
    | none => (.err 404 "Usuário não encontrado", users)
    | some u =>
      let u2 := applyUpdate u patch
      (.ok (sanitizeUser u2), users.set i u2)

inductive UploadResult where
  | err : Nat → String → UploadResult
  | ok : JNum → Int → UploadResult
deriving DecidableEq, Repr

/-- Lines 252-257: `newSize = storageUsed + parseInt(size)`, reject when
`newSize > storageLimit`, otherwise store the increased counter. -/
def incrementStorage (u : Account) (size : JVal) : Except String Account :=
  let newSize := u.storageUsed.add (parseInt size)
  if newSize.gtInt u.storageLimit then .error "Limite de armazenamento excedido"
  else .ok { u with storageUsed := newSize }

/-- `POST /api/files/upload` (lines 236-278): presence validation (JavaScript
truthiness, so `size: 0` is rejected), find the account, quota check, persist
the increased counter only on success. -/
def upload (users : List Account) (uid : String) (filename : String)
    (size : JVal) : UploadResult × List Account :=
  if filename == "" || !(truthy size) then
    (.err 400 "Nome do arquivo e tamanho são obrigatórios", users)
  else
    match users.findIdx? (fun u => u.id == uid) with
    | none => (.err 404 "Usuário não encontrado", users)
    | some i =>
      match users[i]? with
      | none => (.err 404 "Usuário não encontrado", users)
      | some u =>
        match incrementStorage u size with
        | .error m => (.err 400 m, users)
        | .ok u2 => (.ok u2.storageUsed u2.storageLimit, users.set i u2)

/-- The possible outcomes of `fs.readFile(USERS_FILE)`: file contents, the
ENOENT error, or some other I/O error. -/
inductive ReadInput where
  | content : String → ReadInput
  | enoent : ReadInput
  | otherErr : String → ReadInput
deriving DecidableEq, Repr

/-- `readUsers` (lines 21-32): parse the file when it is readable, return the
empty list on ENOENT, rethrow every other error. The JSON parse step
(`JSON.parse`) is an external library call, passed in as `parse`. -/
def readUsers (parse : String → Except String (List Account)) :
    ReadInput → Except String (List Account)
  | .content s => parse s
  | .enoent => .ok []
  | .otherErr e => .error e

/-- The user views carried by a register response. -/
def registerViews : RegisterResult → List (List (String × JVal))
  | .created v _ => [v]
  | .err _ _ => []

/-- The user views carried by a login response. -/
def loginViews : LoginResult → List (List (String × JVal))
  | .ok v _ => [v]
  | .err _ _ => []

/-- The user views carried by a verify/profile response. -/
def viewResultViews : ViewResult → List (List (String × JVal))
  | .ok v => [v]
  | .err _ _ => []

/-- Every stored account carries the creation-time 1 TB storage limit. -/
def limitInv (users : List Account) : Prop :=
  ∀ u ∈ users, u.storageLimit = 1099511627776

/-- A concrete registered account used to instantiate the theorems. -/
def acctAna : Account :=
  { id := "1", username := .str "ana", email := .str "ana@x.com",
    password := hashPassword "p1", storageUsed := .int 0,
    storageLimit := 1099511627776, createdAt := "2023-01-01", isActive := true,
    settings := .settingsObj false true "light" }

/-- Structural (fuel-free) version of the digit emission performed by
`Nat.toDigitsCore` in base 10, used to reason about `Nat.repr` — the
`Date.now().toString()` account-id computation. -/
def digitsRec (n : Nat) : List Char :=
  if h : n / 10 = 0 then [Nat.digitChar (n % 10)]
  else digitsRec (n / 10) ++ [Nat.digitChar (n % 10)]
termination_by n
decreasing_by
  exact Nat.div_lt_self (Nat.pos_of_ne_zero (fun hn => h (by simp [hn]))) (by omega)

/-- Decode a most-significant-first digit list back to its numeric value. -/
def decodeDigits (ds : List Char) : Nat :=
  ds.foldl (fun a c => a * 10 + (c.toNat - 48)) 0

/-! ### The profile-update loop: frame and field lemmas -/

theorem updateStep_frame (u : Account) (kv : String × JVal) :
    (updateStep u kv).id = u.id ∧ (updateStep u kv).password = u.password ∧
    (updateStep u kv).storageUsed = u.storageUsed ∧
    (updateStep u kv).storageLimit = u.storageLimit ∧
    (updateStep u kv).createdAt = u.createdAt ∧
    (updateStep u kv).isActive = u.isActive := by
  unfold updateStep assignField
  repeat' split
  all_goals exact ⟨rfl, rfl, rfl, rfl, rfl, rfl⟩

theorem applyUpdate_frame {α : Type} (f : Account → α)
    (hf : ∀ u kv, f (updateStep u kv) = f u) :
    ∀ (patch : List (String × JVal)) (u : Account), f (applyUpdate u patch) = f u := by
  intro patch
  induction patch with
  | nil => intro u; rfl
  | cons kv rest ih =>
    intro u
    show f (applyUpdate (updateStep u kv) rest) = f u
    rw [ih, hf]

theorem applyUpdate_id (patch : List (String × JVal)) (u : Account) :
    (applyUpdate u patch).id = u.id :=
  applyUpdate_frame Account.id (fun u kv => (updateStep_frame u kv).1) patch u

theorem applyUpdate_password (patch : List (String × JVal)) (u : Account) :
    (applyUpdate u patch).password = u.password :=
  applyUpdate_frame Account.password (fun u kv => (updateStep_frame u kv).2.1) patch u

theorem applyUpdate_storageUsed (patch : List (String × JVal)) (u : Account) :
    (applyUpdate u patch).storageUsed = u.storageUsed :=
  applyUpdate_frame Account.storageUsed (fun u kv => (updateStep_frame u kv).2.2.1) patch u

theorem applyUpdate_storageLimit (patch : List (String × JVal)) (u : Account) :
    (applyUpdate u patch).storageLimit = u.storageLimit :=
  applyUpdate_frame Account.storageLimit (fun u kv => (updateStep_frame u kv).2.2.2.1) patch u

theorem applyUpdate_createdAt (patch : List (String × JVal)) (u : Account) :
    (applyUpdate u patch).createdAt = u.createdAt :=
  applyUpdate_frame Account.createdAt (fun u kv => (updateStep_frame u kv).2.2.2.2.1) patch u

theorem applyUpdate_isActive (patch : List (String × JVal)) (u : Account) :
    (applyUpdate u patch).isActive = u.isActive :=
  applyUpdate_frame Account.isActive (fun u kv => (updateStep_frame u kv).2.2.2.2.2) patch u

theorem lastVal_cons (key : String) (kv : String × JVal) (rest : List (String × JVal)) :
    lastVal key (kv :: rest) = match lastVal key rest with
      | some v => some v
      | none => if kv.1 == key then some kv.2 else none := rfl

theorem updateStep_username (u : Account) (kv : String × JVal) :
    (updateStep u kv).username = if kv.1 == "username" then kv.2 else u.username := by
  unfold updateStep assignField
  by_cases h : kv.1 = "username"
  · simp [h, allowedUpdates]
  · simp only [beq_iff_eq, h, if_false]
    repeat' split
    all_goals rfl

theorem updateStep_email (u : Account) (kv : String × JVal) :
    (updateStep u kv).email = if kv.1 == "email" then kv.2 else u.email := by
  unfold updateStep assignField
  by_cases h : kv.1 = "email"
  · simp [h, allowedUpdates]
  · simp only [beq_iff_eq, h, if_false]
    repeat' split
    all_goals rfl

theorem updateStep_settings (u : Account) (kv : String × JVal) :
    (updateStep u kv).settings = if kv.1 == "settings" then kv.2 else u.settings := by
  unfold updateStep assignField
  by_cases h : kv.1 = "settings"
  · simp [h, allowedUpdates]
  · simp only [beq_iff_eq, h, if_false]
    repeat' split
    all_goals rfl

theorem applyUpdate_username (patch : List (String × JVal)) (u : Account) :
    (applyUpdate u patch).username = (lastVal "username" patch).getD u.username := by
  induction patch generalizing u with
  | nil => rfl
  | cons kv rest ih =>
    show (applyUpdate (updateStep u kv) rest).username = _
    rw [ih, lastVal_cons]
    cases hrest : lastVal "username" rest with
    | some v => rfl
    | none =>
      rw [updateStep_username]
      by_cases h : (kv.1 == "username") = true
      · rw [if_pos h, if_pos h]
        rfl
      · rw [if_neg h, if_neg h]

theorem applyUpdate_email (patch : List (String × JVal)) (u : Account) :
    (applyUpdate u patch).email = (lastVal "email" patch).getD u.email := by
  induction patch generalizing u with
  | nil => rfl
  | cons kv rest ih =>
    show (applyUpdate (updateStep u kv) rest).email = _
    rw [ih, lastVal_cons]
    cases hrest : lastVal "email" rest with
    | some v => rfl
    | none =>
      rw [updateStep_email]
      by_cases h : (kv.1 == "email") = true
      · rw [if_pos h, if_pos h]
        rfl
      · rw [if_neg h, if_neg h]

theorem applyUpdate_settings (patch : List (String × JVal)) (u : Account) :
    (applyUpdate u patch).settings = (lastVal "settings" patch).getD u.settings := by
  induction patch generalizing u with
  | nil => rfl
  | cons kv rest ih =>
    show (applyUpdate (updateStep u kv) rest).settings = _
    rw [ih, lastVal_cons]
    cases hrest : lastVal "settings" rest with
    | some v => rfl
    | none =>
      rw [updateStep_settings]
      by_cases h : (kv.1 == "settings") = true
      · rw [if_pos h, if_pos h]
        rfl
      · rw [if_neg h, if_neg h]

/-- C4: the profile-update loop copies onto the stored account exactly the patch
entries whose keys are in the allowed set (username, email, settings; the last
entry for a key wins), and every other stored field — id, password hash, storage
counters, creation timestamp, active flag — is left untouched. -/
theorem applyUpdate_exact_allowed_fields (u : Account) (patch : List (String × JVal)) :
    (applyUpdate u patch).username = (lastVal "username" patch).getD u.username ∧
    (applyUpdate u patch).email = (lastVal "email" patch).getD u.email ∧
    (applyUpdate u patch).settings = (lastVal "settings" patch).getD u.settings ∧
    (applyUpdate u patch).id = u.id ∧
    (applyUpdate u patch).password = u.password ∧
    (applyUpdate u patch).storageUsed = u.storageUsed ∧
    (applyUpdate u patch).storageLimit = u.storageLimit ∧
    (applyUpdate u patch).createdAt = u.createdAt ∧
    (applyUpdate u patch).isActive = u.isActive :=
  ⟨applyUpdate_username patch u, applyUpdate_email patch u, applyUpdate_settings patch u,
   applyUpdate_id patch u, applyUpdate_password patch u, applyUpdate_storageUsed patch u,
   applyUpdate_storageLimit patch u, applyUpdate_createdAt patch u,
   applyUpdate_isActive patch u⟩

/-! ### Registration -/

theorem hashPassword_ne_plaintext (password : String) : hashPassword password ≠ password := by
  intro heq
  have hlen := congrArg String.length heq
  rw [hashPassword, String.length_append,
    show ("$2b$12$" : String).length = 7 from rfl] at hlen
  omega

/-- C1: with all three fields present, registration fails with 409
"Usuário ou email já cadastrado" exactly when some stored account has the same
email or username (leaving the store unchanged); otherwise it succeeds, appends
the new account, and the stored hash differs from the plaintext password. -/
theorem register_duplicate_or_success
    (secret : String) (now : Nat) (createdAt : String) (users : List Account)
    (username email password : String)
    (hu : username ≠ "") (he : email ≠ "") (hp : password ≠ "") :
    ((∃ u ∈ users, jsStrictEq u.email (.str email) = true ∨
        jsStrictEq u.username (.str username) = true) →
      register secret now createdAt users username email password =
        (.err 409 "Usuário ou email já cadastrado", users)) ∧
    ((∀ u ∈ users, jsStrictEq u.email (.str email) = false ∧
        jsStrictEq u.username (.str username) = false) →
      register secret now createdAt users username email password =
        (.created (sanitizeUser (mkNewUser now createdAt username email password))
           (issueToken secret now (Nat.repr now) (.str email)),
         users ++ [mkNewUser now createdAt username email password]) ∧
      (mkNewUser now createdAt username email password).password = hashPassword password ∧
      hashPassword password ≠ password) := by
  have hcond : (username == "" || email == "" || password == "") = false := by
    simp [hu, he, hp]
  constructor
  · intro ⟨u, hmem, hor⟩
    have hany : (users.any (fun u =>
        jsStrictEq u.email (.str email) || jsStrictEq u.username (.str username))) = true := by
      rw [List.any_eq_true]
      exact ⟨u, hmem, by rcases hor with h | h <;> simp [h]⟩
    rw [register, hcond]
    simp only [Bool.false_eq_true, if_false, hany, if_true]
  · intro hnone
    have hany : (users.any (fun u =>
        jsStrictEq u.email (.str email) || jsStrictEq u.username (.str username))) = false := by
      rw [List.any_eq_false]
      intro u hmem
      rcases hnone u hmem with ⟨h1, h2⟩
      simp [h1, h2]
    refine ⟨?_, rfl, hashPassword_ne_plaintext password⟩
    rw [register, hcond]
    simp only [Bool.false_eq_true, if_false, hany, if_true]
    rfl

theorem register_duplicate_or_success_witness :
    register "s" 5 "t" [] "ana" "a@x" "p" =
      (.created (sanitizeUser (mkNewUser 5 "t" "ana" "a@x" "p"))
         (issueToken "s" 5 (Nat.repr 5) (.str "a@x")),
       [mkNewUser 5 "t" "ana" "a@x" "p"]) :=
  ((register_duplicate_or_success "s" 5 "t" [] "ana" "a@x" "p"
      (by decide) (by decide) (by decide)).2 (by simp)).1

/-! ### Login -/

/-- C8: with both credentials present, an email matching no stored account and a
matching email with a wrong password produce the identical error response:
status 401 with error message "Credenciais inválidas". -/
theorem login_unknown_email_and_wrong_password_identical
    (secret : String) (now : Nat) (users : List Account) (email password : String)
    (he : email ≠ "") (hp : password ≠ "") :
    ((∀ u ∈ users, jsStrictEq u.email (.str email) = false) →
      login secret now users email password = .err 401 "Credenciais inválidas") ∧
    (∀ u, users.find? (fun a => jsStrictEq a.email (.str email)) = some u →
      verifyPassword password u.password = false →
      login secret now users email password = .err 401 "Credenciais inválidas") := by
  have hcond : (email == "" || password == "") = false := by simp [he, hp]
  constructor
  · intro hnone
    have hfind : users.find? (fun u => jsStrictEq u.email (.str email)) = none := by
      rw [List.find?_eq_none]
      intro u hmem
      simp [hnone u hmem]
    rw [login, hcond]
    simp only [Bool.false_eq_true, if_false, hfind]
  · intro u hfind hpw
    rw [login, hcond]
    simp only [Bool.false_eq_true, if_false, hfind, hpw]

theorem login_unknown_email_and_wrong_password_identical_witness :
    login "s" 0 [] "a@x" "p" = .err 401 "Credenciais inválidas" :=
  (login_unknown_email_and_wrong_password_identical "s" 0 [] "a@x" "p"
      (by decide) (by decide)).1 (by simp)

/-! ### Token issuance and verification -/

/-- C6: verifying a token immediately after issuing it returns exactly the
embedded claims; verifying it at or past the 7-day horizon yields the expired
error; a token whose payload was tampered with (its signature no longer covers
its claims), and a malformed token, yield the invalid error. -/
theorem verifyToken_issueToken_roundtrip
    (secret : String) (now : Nat) (accountId : String) (email : JVal) :
    verifyToken secret now (.tok (issueToken secret now accountId email)) =
      .valid accountId email ∧
    (∀ later, now + sevenDays ≤ later →
      verifyToken secret later (.tok (issueToken secret now accountId email)) = .expired) ∧
    (∀ (uid' : String) (em' : JVal) (exp' : Nat),
      ¬(uid' = accountId ∧ em' = email ∧ exp' = now + sevenDays) →
      verifyToken secret now
        (.tok ⟨uid', em', exp', (issueToken secret now accountId email).sig⟩) = .invalid) ∧
    (∀ s, verifyToken secret now (.malformed s) = .invalid) := by
  refine ⟨?_, ?_, ?_, fun s => rfl⟩
  · rw [verifyToken, issueToken]
    rw [if_pos rfl, if_neg (by simp [sevenDays])]
  · intro later hlater
    rw [verifyToken, issueToken]
    rw [if_pos rfl, if_pos hlater]
  · intro uid' em' exp' hne
    rw [verifyToken, issueToken]
    rw [if_neg]
    simp only [mkSig, Sig.mk.injEq, true_and]
    intro ⟨h1, h2, h3⟩
    exact hne ⟨h1.symm, h2.symm, h3.symm⟩

theorem verifyToken_issueToken_roundtrip_witness :
    verifyToken "s" (0 + sevenDays) (.tok (issueToken "s" 0 "1" (.str "a@x"))) = .expired :=
  (verifyToken_issueToken_roundtrip "s" 0 "1" (.str "a@x")).2.1 (0 + sevenDays) (le_refl _)

/-! ### Reading the backing file -/

/-- C7: `readUsers` turns the missing-file error (ENOENT) — and only that
failure — into the empty account list; any other I/O error and any parse
failure propagate as errors. -/
theorem readUsers_enoent_empty_otherwise_propagates
    (parse : String → Except String (List Account)) :
    readUsers parse .enoent = .ok [] ∧
    (∀ e, readUsers parse (.otherErr e) = .error e) ∧
    (∀ s e, parse s = .error e → readUsers parse (.content s) = .error e) ∧
    (∀ inp : ReadInput, (∀ s, inp ≠ .content s) →
      (readUsers parse inp = .ok [] ↔ inp = .enoent)) := by
  refine ⟨rfl, fun e => rfl, fun s e h => h, ?_⟩
  intro inp hnc
  cases inp with
  | content s => exact absurd rfl (hnc s)
  | enoent => simp [readUsers]
  | otherErr e => simp [readUsers]

theorem readUsers_enoent_empty_otherwise_propagates_witness :
    readUsers (fun _ => Except.error "bad json") (.content "x") = .error "bad json" :=
  (readUsers_enoent_empty_otherwise_propagates
      (fun _ => Except.error "bad json")).2.2.1 "x" "bad json" rfl

/-! ### Password stripping -/

theorem sanitizeUser_keys (u : Account) : (sanitizeUser u).map Prod.fst =
    ["id", "username", "email", "storageUsed", "storageLimit", "createdAt",
     "isActive", "settings"] := rfl

theorem sanitizeUser_no_password_key (u : Account) (kv : String × JVal)
    (h : kv ∈ sanitizeUser u) : kv.1 ≠ "password" ∧ kv.1 ≠ "passwordHash" := by
  have hk : kv.1 ∈ (sanitizeUser u).map Prod.fst := List.mem_map_of_mem Prod.fst h
  rw [sanitizeUser_keys] at hk
  simp only [List.mem_cons, List.not_mem_nil, or_false] at hk
  rcases hk with h | h | h | h | h | h | h | h
  all_goals rw [h]
  all_goals exact ⟨by decide, by decide⟩

theorem registerViews_sanitized (secret : String) (now : Nat) (createdAt : String)
    (users : List Account) (username email password : String) :
    ∀ v ∈ registerViews (register secret now createdAt users username email password).1,
      ∃ a, v = sanitizeUser a := by
  intro v hv
  rw [register] at hv
  split at hv
  · simp [registerViews] at hv
  · split at hv
    · simp [registerViews] at hv
    · simp only [registerViews, List.mem_singleton] at hv
      exact ⟨_, hv⟩

theorem loginViews_sanitized (secret : String) (now : Nat) (users : List Account)
    (email password : String) :
    ∀ v ∈ loginViews (login secret now users email password), ∃ a, v = sanitizeUser a := by
  intro v hv
  rw [login] at hv
  split at hv
  · simp [loginViews] at hv
  · split at hv
    · simp [loginViews] at hv
    · split at hv
      · simp only [loginViews, List.mem_singleton] at hv
        exact ⟨_, hv⟩
      · simp [loginViews] at hv

theorem authViews_sanitized (secret : String) (now : Nat) (users : List Account)
    (w : Option Wire) (f : List Account → Option Wire → ViewResult)
    (hf : f = verifyRoute secret now ∨ f = getProfile secret now) :
    ∀ v ∈ viewResultViews (f users w), ∃ a, v = sanitizeUser a := by
  intro v hv
  have hval : f users w = match authenticate secret now users w with
      | .err s m => .err s m
      | .ok u => .ok (sanitizeUser u) := by
    rcases hf with h | h <;> subst h <;> rfl
  rw [hval] at hv
  cases hA : authenticate secret now users w with
  | err s m => rw [hA] at hv; simp [viewResultViews] at hv
  | ok u =>
    rw [hA] at hv
    simp only [viewResultViews, List.mem_singleton] at hv
    exact ⟨_, hv⟩

theorem updateProfileViews_sanitized (users : List Account) (uid : String)
    (patch : List (String × JVal)) :
    ∀ v ∈ viewResultViews (updateProfile users uid patch).1, ∃ a, v = sanitizeUser a := by
  intro v hv
  rw [updateProfile] at hv
  split at hv
  · simp [viewResultViews] at hv
  · split at hv
    · simp [viewResultViews] at hv
    · simp only [viewResultViews, List.mem_singleton] at hv
      exact ⟨_, hv⟩

/-- C5: no response of register, login, verify, get-profile or update-profile
carries a `password` (or `passwordHash`) key in its user view: every view is
produced by the password-stripping rest-spread. -/
theorem no_response_contains_password :
    (∀ (secret : String) (now : Nat) (createdAt : String) (users : List Account)
        (username email password : String) (v : List (String × JVal)) (kv : String × JVal),
      v ∈ registerViews (register secret now createdAt users username email password).1 →
      kv ∈ v → kv.1 ≠ "password" ∧ kv.1 ≠ "passwordHash") ∧
    (∀ (secret : String) (now : Nat) (users : List Account) (email password : String)
        (v : List (String × JVal)) (kv : String × JVal),
      v ∈ loginViews (login secret now users email password) →
      kv ∈ v → kv.1 ≠ "password" ∧ kv.1 ≠ "passwordHash") ∧
    (∀ (secret : String) (now : Nat) (users : List Account) (w : Option Wire)
        (v : List (String × JVal)) (kv : String × JVal),
      v ∈ viewResultViews (verifyRoute secret now users w) →
      kv ∈ v → kv.1 ≠ "password" ∧ kv.1 ≠ "passwordHash") ∧
    (∀ (secret : String) (now : Nat) (users : List Account) (w : Option Wire)
        (v : List (String × JVal)) (kv : String × JVal),
      v ∈ viewResultViews (getProfile secret now users w) →
      kv ∈ v → kv.1 ≠ "password" ∧ kv.1 ≠ "passwordHash") ∧
    (∀ (users : List Account) (uid : String) (patch : List (String × JVal))
        (v : List (String × JVal)) (kv : String × JVal),
      v ∈ viewResultViews (updateProfile users uid patch).1 →
      kv ∈ v → kv.1 ≠ "password" ∧ kv.1 ≠ "passwordHash") := by
  refine ⟨?_, ?_, ?_, ?_, ?_⟩
  · intro secret now createdAt users un em pw v kv hv hkv
    obtain ⟨a, rfl⟩ := registerViews_sanitized secret now createdAt users un em pw v hv
    exact sanitizeUser_no_password_key a kv hkv
  · intro secret now users em pw v kv hv hkv
    obtain ⟨a, rfl⟩ := loginViews_sanitized secret now users em pw v hv
    exact sanitizeUser_no_password_key a kv hkv
  · intro secret now users w v kv hv hkv
    obtain ⟨a, rfl⟩ := authViews_sanitized secret now users w _ (Or.inl rfl) v hv
    exact sanitizeUser_no_password_key a kv hkv
  · intro secret now users w v kv hv hkv
    obtain ⟨a, rfl⟩ := authViews_sanitized secret now users w _ (Or.inr rfl) v hv
    exact sanitizeUser_no_password_key a kv hkv
  · intro users uid patch v kv hv hkv
    obtain ⟨a, rfl⟩ := updateProfileViews_sanitized users uid patch v hv
    exact sanitizeUser_no_password_key a kv hkv

theorem no_response_contains_password_witness :
    ("id", JVal.str (Nat.repr 5)).1 ≠ "password" ∧
    ("id", JVal.str (Nat.repr 5)).1 ≠ "passwordHash" :=
  no_response_contains_password.1 "s" 5 "t" [] "ana" "a@x" "p"
    (sanitizeUser (mkNewUser 5 "t" "ana" "a@x" "p")) ("id", JVal.str (Nat.repr 5))
    (by decide) (by decide)

/-! ### The upload route and the storage counters -/

theorem incrementStorage_ok_fields (u : Account) (sz : JVal) (u2 : Account)
    (h : incrementStorage u sz = .ok u2) :
    u2.id = u.id ∧ u2.storageLimit = u.storageLimit ∧
    u2.storageUsed = u.storageUsed.add (parseInt sz) := by
  rw [incrementStorage] at h
  split at h
  · cases h
  · injection h with h2
    subst h2
    exact ⟨rfl, rfl, rfl⟩

theorem upload_eq (users : List Account) (uid fn : String) (sz : JVal) :
    (∃ s m, upload users uid fn sz = (.err s m, users)) ∨
    (∃ i u u2, users.findIdx? (fun a => a.id == uid) = some i ∧ users[i]? = some u ∧
      incrementStorage u sz = .ok u2 ∧
      upload users uid fn sz = (.ok u2.storageUsed u2.storageLimit, users.set i u2)) := by
  rw [upload]
  by_cases hc : (fn == "" || !(truthy sz)) = true
  · rw [if_pos hc]
    exact .inl ⟨400, _, rfl⟩
  · rw [if_neg hc]
    split
    · exact .inl ⟨404, _, rfl⟩
    · next i hidx =>
      split
      · exact .inl ⟨404, _, rfl⟩
      · next u hget =>
        split
        · next m hinc => exact .inl ⟨400, m, rfl⟩
        · next u2 hinc => exact .inr ⟨i, u, u2, hidx, hget, hinc, rfl⟩

/-- C2: on integer-valued counters, the increment of lines 252-257 fails with
the quota-exceeded error exactly when `storageUsed + delta > storageLimit`; the
upload route leaves the stored collection completely unchanged on every error
response (no write happens on the error path); and on success it persists the
account with `storageUsed` increased by exactly the delta. -/
theorem incrementStorage_quota_and_atomic :
    (∀ (u : Account) (n delta : Int), u.storageUsed = .int n →
      (n + delta > u.storageLimit →
        incrementStorage u (.num (.int delta)) =
          .error "Limite de armazenamento excedido") ∧
      (n + delta ≤ u.storageLimit →
        incrementStorage u (.num (.int delta)) =
          .ok { u with storageUsed := .int (n + delta) })) ∧
    (∀ (users : List Account) (uid fn : String) (sz : JVal) (s : Nat) (m : String),
      (upload users uid fn sz).1 = .err s m → (upload users uid fn sz).2 = users) ∧
    (∀ (users : List Account) (uid fn : String) (sz : JVal) (i : Nat) (u u2 : Account),
      users.findIdx? (fun a => a.id == uid) = some i → users[i]? = some u →
      fn ≠ "" → truthy sz = true → incrementStorage u sz = .ok u2 →
      upload users uid fn sz = (.ok u2.storageUsed u2.storageLimit, users.set i u2)) := by
  refine ⟨?_, ?_, ?_⟩
  · intro u n delta hn
    constructor
    · intro hgt
      rw [incrementStorage]
      simp only [parseInt, hn, JNum.add]
      rw [if_pos]
      simp only [JNum.gtInt]
      exact decide_eq_true hgt
    · intro hle
      rw [incrementStorage]
      simp only [parseInt, hn, JNum.add]
      rw [if_neg]
      simp only [JNum.gtInt]
      simp only [decide_eq_true_eq]
      omega
  · intro users uid fn sz s m h
    rcases upload_eq users uid fn sz with ⟨s', m', he⟩ | ⟨i, u, u2, _, _, _, he⟩
    · rw [he]
    · rw [he] at h
      cases h
  · intro users uid fn sz i u u2 hidx hget hfn htr hinc
    have hc : (fn == "" || !(truthy sz)) = false := by simp [hfn, htr]
    rw [upload, hc]
    simp only [Bool.false_eq_true, if_false]
    split
    · next heq => rw [hidx] at heq; cases heq
    · next i' heq =>
      rw [hidx] at heq
      injection heq with hi
      subst hi
      split
      · next hg => rw [hget] at hg; cases hg
      · next u' hg =>
        rw [hget] at hg
        injection hg with hu
        subst hu
        split
        · next m' hi2 => rw [hinc] at hi2; cases hi2
        · next u2' hi2 =>
          rw [hinc] at hi2
          injection hi2 with h2
          subst h2
          rfl

theorem incrementStorage_quota_and_atomic_witness :
    incrementStorage acctAna (.num (.int 5)) =
      .ok { acctAna with storageUsed := .int (0 + 5) } :=
  ((incrementStorage_quota_and_atomic.1 acctAna 0 5 rfl).2 (by decide))

/-- C3 (failing input): an authenticated upload with body
`filename: "f.txt", size: "-5"` on a fresh account is accepted and persists
`storageUsed = -5`, violating the invariant `0 ≤ storageUsed`. -/
theorem upload_negative_size_breaks_invariant :
    upload [acctAna] "1" "f.txt" (.str "-5") =
      (.ok (.int (-5)) 1099511627776,
       [{ acctAna with storageUsed := .int (-5) }]) ∧
    (-5 : Int) < 0 :=
  ⟨by decide, by decide⟩

/-! ### Injectivity of the decimal account id -/

theorem toDigitsCore_acc_append :
    ∀ (fuel n : Nat) (acc : List Char),
      Nat.toDigitsCore 10 fuel n acc = Nat.toDigitsCore 10 fuel n [] ++ acc := by
  intro fuel
  induction fuel with
  | zero => intro n acc; rfl
  | succ f ih =>
    intro n acc
    show (if n / 10 = 0 then Nat.digitChar (n % 10) :: acc
        else Nat.toDigitsCore 10 f (n / 10) (Nat.digitChar (n % 10) :: acc)) =
      (if n / 10 = 0 then Nat.digitChar (n % 10) :: ([] : List Char)
        else Nat.toDigitsCore 10 f (n / 10) (Nat.digitChar (n % 10) :: [])) ++ acc
    by_cases h : n / 10 = 0
    · rw [if_pos h, if_pos h]
      rfl
    · rw [if_neg h, if_neg h, ih (n / 10) (Nat.digitChar (n % 10) :: acc),
        ih (n / 10) (Nat.digitChar (n % 10) :: [])]
      simp [List.append_assoc]

theorem toDigitsCore_eq_digitsRec :
    ∀ (fuel n : Nat), n < fuel → Nat.toDigitsCore 10 fuel n [] = digitsRec n := by
  intro fuel
  induction fuel with
  | zero => intro n h; omega
  | succ f ih =>
    intro n h
    show (if n / 10 = 0 then Nat.digitChar (n % 10) :: ([] : List Char)
        else Nat.toDigitsCore 10 f (n / 10) (Nat.digitChar (n % 10) :: [])) = digitsRec n
    rw [digitsRec]
    by_cases h0 : n / 10 = 0
    · rw [if_pos h0, dif_pos h0]
    · rw [if_neg h0, dif_neg h0,
        toDigitsCore_acc_append f (n / 10) (Nat.digitChar (n % 10) :: []),
        ih (n / 10) (by omega)]

theorem digitChar_toNat_sub (d : Nat) (h : d < 10) : (Nat.digitChar d).toNat - 48 = d := by
  interval_cases d <;> decide

theorem decodeDigits_append_digit (ds : List Char) (c : Char) :
    decodeDigits (ds ++ [c]) = decodeDigits ds * 10 + (c.toNat - 48) := by
  rw [decodeDigits, List.foldl_append]
  rfl

theorem decodeDigits_digitsRec (n : Nat) : decodeDigits (digitsRec n) = n := by
  induction n using Nat.strong_induction_on with
  | _ n ih =>
    rw [digitsRec]
    by_cases h : n / 10 = 0
    · rw [dif_pos h]
      have hsingle : decodeDigits [Nat.digitChar (n % 10)] =
          0 * 10 + ((Nat.digitChar (n % 10)).toNat - 48) := rfl
      rw [hsingle, digitChar_toNat_sub (n % 10) (by omega)]
      omega
    · rw [dif_neg h, decodeDigits_append_digit,
        ih (n / 10) (Nat.div_lt_self (by omega) (by omega)),
        digitChar_toNat_sub (n % 10) (by omega)]
      omega

theorem Nat_repr_injective (m n : Nat) (h : Nat.repr m = Nat.repr n) : m = n := by
  have hd : Nat.toDigits 10 m = Nat.toDigits 10 n := congrArg String.data h
  rw [Nat.toDigits, Nat.toDigits, toDigitsCore_eq_digitsRec (m + 1) m (by omega),
    toDigitsCore_eq_digitsRec (n + 1) n (by omega)] at hd
  have hdec := congrArg decodeDigits hd
  rwa [decodeDigits_digitsRec, decodeDigits_digitsRec] at hdec

/-! ### Store-shape lemmas shared by the id and storage-limit invariants -/

theorem updateProfile_store_eq (users : List Account) (uid : String)
    (patch : List (String × JVal)) :
    (updateProfile users uid patch).2 = users ∨
    (∃ i u, users.findIdx? (fun a => a.id == uid) = some i ∧ users[i]? = some u ∧
      (updateProfile users uid patch).2 = users.set i (applyUpdate u patch)) := by
  rw [updateProfile]
  split
  · exact .inl rfl
  · next i hidx =>
    split
    · exact .inl rfl
    · next u hget => exact .inr ⟨i, u, hidx, hget, rfl⟩

theorem map_set_eq_of_apply_eq {α β : Type} (f : α → β) (l : List α) (i : Nat) (a b : α)
    (hget : l[i]? = some a) (hfb : f b = f a) : (l.set i b).map f = l.map f := by
  induction l generalizing i with
  | nil => simp at hget
  | cons x xs ih =>
    cases i with
    | zero =>
      rw [List.getElem?_cons_zero] at hget
      injection hget with hx
      subst hx
      simp [hfb]
    | succ k =>
      rw [List.getElem?_cons_succ] at hget
      simp [ih k hget]

/-! ### Account ids -/

/-- C9 (counterexample): two successful registrations in the same millisecond
(`Date.now()` returning 7 both times) store two accounts with the SAME id "7",
because the id is just the decimal timestamp. -/
theorem same_millisecond_registrations_collide :
    ((register "s" 7 "t" [] "ana" "a@x" "p1").1).isCreated = true ∧
    ((register "s" 7 "t" (register "s" 7 "t" [] "ana" "a@x" "p1").2
        "bob" "b@x" "p2").1).isCreated = true ∧
    ((register "s" 7 "t" (register "s" 7 "t" [] "ana" "a@x" "p1").2
        "bob" "b@x" "p2").2).map Account.id = ["7", "7"] :=
  ⟨by decide, by decide, by decide⟩

/-- C9 (amended): account ids are decimal registration timestamps, so two
successful registrations at distinct millisecond timestamps receive distinct
ids (same-millisecond registrations collide); a successful registration appends
exactly the new account; and no later operation (profile update, upload) ever
changes any stored account's id. -/
theorem account_ids_distinct_timestamps_and_immutable :
    (∀ (now1 now2 : Nat) (ca1 un1 em1 pw1 ca2 un2 em2 pw2 : String), now1 ≠ now2 →
      (mkNewUser now1 ca1 un1 em1 pw1).id ≠ (mkNewUser now2 ca2 un2 em2 pw2).id) ∧
    (∀ (secret : String) (now : Nat) (ca : String) (users : List Account)
        (un em pw : String) (r : RegisterResult) (store : List Account),
      register secret now ca users un em pw = (r, store) → r.isCreated = true →
      store = users ++ [mkNewUser now ca un em pw]) ∧
    (∀ (users : List Account) (uid : String) (patch : List (String × JVal)),
      ((updateProfile users uid patch).2).map Account.id = users.map Account.id) ∧
    (∀ (users : List Account) (uid fn : String) (sz : JVal),
      ((upload users uid fn sz).2).map Account.id = users.map Account.id) := by
  refine ⟨?_, ?_, ?_, ?_⟩
  · intro now1 now2 ca1 un1 em1 pw1 ca2 un2 em2 pw2 hne heq
    exact hne (Nat_repr_injective now1 now2 heq)
  · intro secret now ca users un em pw r store hreg hc
    rw [register] at hreg
    split at hreg
    · injection hreg with h1 h2
      subst h1
      cases hc
    · split at hreg
      · injection hreg with h1 h2
        subst h1
        cases hc
      · injection hreg with h1 h2
        exact h2.symm
  · intro users uid patch
    rcases updateProfile_store_eq users uid patch with heq | ⟨i, u, hidx, hget, heq⟩
    · rw [heq]
    · rw [heq]
      exact map_set_eq_of_apply_eq Account.id users i u (applyUpdate u patch) hget
        (applyUpdate_id patch u)
  · intro users uid fn sz
    rcases upload_eq users uid fn sz with ⟨s, m, heq⟩ | ⟨i, u, u2, hidx, hget, hinc, heq⟩
    · rw [heq]
    · have h2 : (upload users uid fn sz).2 = users.set i u2 := congrArg Prod.snd heq
      rw [h2]
      exact map_set_eq_of_apply_eq Account.id users i u u2 hget
        (incrementStorage_ok_fields u sz u2 hinc).1

theorem account_ids_distinct_timestamps_and_immutable_witness :
    (mkNewUser 1 "t" "ana" "a@x" "p").id ≠ (mkNewUser 2 "t" "bob" "b@x" "q").id :=
  account_ids_distinct_timestamps_and_immutable.1 1 2 "t" "ana" "a@x" "p" "t" "bob" "b@x" "q"
    (by decide)

/-! ### Storage-limit invariance -/

/-- C10: no operation modifies `storageLimit` after creation — the empty store
satisfies the 1 TB-limit invariant, registration creates accounts with limit
1099511627776, profile update and upload preserve the invariant, and every
account satisfying it has a nonzero limit (so the stats percentage never
divides by zero). -/
theorem storageLimit_never_modified :
    limitInv [] ∧
    (∀ (secret : String) (now : Nat) (ca : String) (users : List Account)
        (un em pw : String),
      limitInv users → limitInv (register secret now ca users un em pw).2) ∧
    (∀ (users : List Account) (uid : String) (patch : List (String × JVal)),
      limitInv users → limitInv (updateProfile users uid patch).2) ∧
    (∀ (users : List Account) (uid fn : String) (sz : JVal),
      limitInv users → limitInv (upload users uid fn sz).2) ∧
    (∀ users : List Account, limitInv users → ∀ u ∈ users, u.storageLimit ≠ 0) := by
  refine ⟨?_, ?_, ?_, ?_, ?_⟩
  · intro u hu
    cases hu
  · intro secret now ca users un em pw hinv
    rw [register]
    split
    · exact hinv
    · split
      · exact hinv
      · intro x hx
        rcases List.mem_append.mp hx with hmem | hnew
        · exact hinv x hmem
        · rw [List.mem_singleton] at hnew
          subst hnew
          rfl
  · intro users uid patch hinv
    rcases updateProfile_store_eq users uid patch with heq | ⟨i, u, hidx, hget, heq⟩
    · rw [heq]; exact hinv
    · rw [heq]
      intro x hx
      rcases List.mem_or_eq_of_mem_set hx with hmem | hup
      · exact hinv x hmem
      · subst hup
        rw [applyUpdate_storageLimit]
        exact hinv u (List.getElem?_mem hget)
  · intro users uid fn sz hinv
    rcases upload_eq users uid fn sz with ⟨s, m, heq⟩ | ⟨i, u, u2, hidx, hget, hinc, heq⟩
    · rw [congrArg Prod.snd heq]
      exact hinv
    · rw [congrArg Prod.snd heq]
      intro x hx
      rcases List.mem_or_eq_of_mem_set hx with hmem | hup
      · exact hinv x hmem
      · rw [hup, (incrementStorage_ok_fields u sz u2 hinc).2.1]
        exact hinv u (List.getElem?_mem hget)
  · intro users hinv u hu
    rw [hinv u hu]
    decide

theorem storageLimit_never_modified_witness : acctAna.storageLimit ≠ 0 :=
  storageLimit_never_modified.2.2.2.2 [acctAna]
    (fun u hu => by rw [List.mem_singleton] at hu; subst hu; rfl)
    acctAna (List.mem_singleton.mpr rfl)

end SiteCloud
